import Mathlib

/-!
Shallow embedding of `src/physics-worker.js`, a worker shard owning a list of
ball-in-rotating-container simulation systems.  The repository file contains
two revisions of the worker; the second revision (with the binary state-buffer
protocol and the clamped energy correction) is embedded as the authoritative
code, and the first revision's integration/collision sub-step is embedded as
well (`collide1`) so the two sub-steps can be compared.

JavaScript numbers are modelled as real numbers (exact arithmetic), and
`Float32Array` state buffers as lists of reals with explicit byte-length
accounting (4 bytes per element).  A separate model over an IEEE-style
extended domain (`JsNum`, finite part in `ℚ`) captures the behaviour of
`correctEnergy` on non-finite values, which has no counterpart in the
real-valued model.
-/

namespace PhysicsWorker

noncomputable section

/-- Embeds `const SUB_STEPS = 16`. -/
def SUB_STEPS : ℕ := 16

/-- Embeds `const GRAVITY = 9.81 * 100`. -/
def GRAVITY : ℝ := 9.81 * 100

/-- Embeds `const CONTAINER_RADIUS = 300`. -/
def CONTAINER_RADIUS : ℝ := 300

/-- Embeds `const BALL_RADIUS = 30`. -/
def BALL_RADIUS : ℝ := 30

/-- Embeds `const BALL_MASS = 10`. -/
def BALL_MASS : ℝ := 10

/-- Embeds `const CONTAINER_MASS = 200`. -/
def CONTAINER_MASS : ℝ := 200

/-- Embeds `const RESTITUTION_NORMAL = 1.0`. -/
def RESTITUTION_NORMAL : ℝ := 1.0

/-- Embeds `const RESTITUTION_TANGENT = 1.0`. -/
def RESTITUTION_TANGENT : ℝ := 1.0

/-- Embeds `const NUM_SYSTEMS = 64` (a module-level constant, independent of
how many systems the shard actually owns). -/
def NUM_SYSTEMS : ℝ := 64

/-- Embeds `const STATE_STRIDE = 4` (ballX, ballY, ballAngle, containerAngle). -/
def STATE_STRIDE : ℕ := 4

/-- The ball object created by `SimSystem.reset`. -/
@[ext] structure Ball where
  x : ℝ
  y : ℝ
  vx : ℝ
  vy : ℝ
  angle : ℝ
  angularVelocity : ℝ
  radius : ℝ
  mass : ℝ
  inertia : ℝ

/-- The container object created by `SimSystem.reset`. -/
@[ext] structure Container where
  angle : ℝ
  angularVelocity : ℝ
  radius : ℝ
  mass : ℝ
  inertia : ℝ

/-- The state of one `SimSystem` instance. -/
@[ext] structure SimSystem where
  id : ℝ
  ball : Ball
  container : Container
  initialEnergy : ℝ

/-- The record returned by `SimSystem.calculateEnergy`. -/
structure EnergyStats where
  total : ℝ
  pe : ℝ

/-- Embeds `SimSystem.calculateEnergy`. -/
def calculateEnergy (s : SimSystem) : EnergyStats :=
  let b := s.ball
  let c := s.container
  let v2 := b.vx * b.vx + b.vy * b.vy
  let keLin := 0.5 * b.mass * v2
  let keRotB := 0.5 * b.inertia * (b.angularVelocity * b.angularVelocity)
  let keRotC := 0.5 * c.inertia * (c.angularVelocity * c.angularVelocity)
  let pe := -b.mass * GRAVITY * b.y
  { total := keLin + keRotB + keRotC + pe, pe := pe }

/-- Embeds `SimSystem.reset(id)` (which is also the constructor body of
`new SimSystem(id)`): it overwrites the whole ball and container objects and
recomputes `initialEnergy` from the freshly reset state.  Note that the
divisor in `offset` is the module constant `NUM_SYSTEMS = 64`, not the number
of systems owned by the shard. -/
def reset (id : ℝ) : SimSystem :=
  let offset := (id / NUM_SYSTEMS * 0.02) - 0.01
  let sys : SimSystem :=
    { id := id
      ball :=
        { x := 1 + offset
          y := -220
          vx := 0
          vy := 0
          angle := 0
          angularVelocity := 0
          radius := BALL_RADIUS
          mass := BALL_MASS
          inertia := 0.5 * BALL_MASS * (BALL_RADIUS * BALL_RADIUS) }
      container :=
        { angle := 0
          angularVelocity := 0
          radius := CONTAINER_RADIUS
          mass := CONTAINER_MASS
          inertia := CONTAINER_MASS * (CONTAINER_RADIUS * CONTAINER_RADIUS) }
      initialEnergy := 0 }
  { sys with initialEnergy := (calculateEnergy sys).total }

/-- Embeds the integration phase of one sub-step, which is textually identical
in both revisions of `SimSystem.update`: `b.vy += GRAVITY * subDt` (the second
revision precomputes `gravitySubDt = GRAVITY * subDt`, the same expression),
then positions from the updated velocities, then the two angles. -/
def integrate (s : SimSystem) (subDt : ℝ) : SimSystem :=
  let b := s.ball
  let c := s.container
  let vy' := b.vy + GRAVITY * subDt
  { s with
    ball :=
      { b with
        vy := vy'
        x := b.x + b.vx * subDt
        y := b.y + vy' * subDt
        angle := b.angle + b.angularVelocity * subDt }
    container := { c with angle := c.angle + c.angularVelocity * subDt } }

/-- Embeds the collision phase of one sub-step of the FIRST revision of
`SimSystem.update`: branch on `dist >= maxDist` with `dist = sqrt(distSq)`,
unconditional penetration push, tangential relative surface velocity computed
BEFORE the normal impulse is applied, and impulses written with explicit
divisions by mass/inertia. -/
def collide1 (s : SimSystem) : SimSystem :=
  let b := s.ball
  let c := s.container
  let distSq := b.x * b.x + b.y * b.y
  let dist := Real.sqrt distSq
  let maxDist := c.radius - b.radius
  if maxDist ≤ dist then
    let nx := b.x / dist
    let ny := b.y / dist
    let pen := dist - maxDist
    let px := b.x - nx * pen
    let py := b.y - ny * pen
    let tx := -ny
    let ty := nx
    let vn := b.vx * nx + b.vy * ny
    let vtBallSurf := (b.vx * tx + b.vy * ty) + b.angularVelocity * b.radius
    let vtWallSurf := c.angularVelocity * c.radius
    let vRelTan := vtBallSurf - vtWallSurf
    if 0 < vn then
      let jn := -(1 + RESTITUTION_NORMAL) * vn * b.mass
      let vx1 := b.vx + (jn * nx) / b.mass
      let vy1 := b.vy + (jn * ny) / b.mass
      let invM := 1 / b.mass
      let invIb := (b.radius * b.radius) / b.inertia
      let invIw := (c.radius * c.radius) / c.inertia
      let effMass := 1 / (invM + invIb + invIw)
      let jt := -(1 + RESTITUTION_TANGENT) * vRelTan * effMass
      { s with
        ball :=
          { b with
            x := px
            y := py
            vx := vx1 + (jt * tx) / b.mass
            vy := vy1 + (jt * ty) / b.mass
            angularVelocity := b.angularVelocity + (jt * b.radius) / b.inertia }
        container :=
          { c with
            angularVelocity := c.angularVelocity - (jt * c.radius) / c.inertia } }
    else
      { s with ball := { b with x := px, y := py } }
  else s

/-- Embeds the collision phase of one sub-step of the SECOND revision of
`SimSystem.update`: branch on `distSq >= maxDistSq` before taking the square
root, early `continue` when `dist <= 0`, penetration push guarded by
`pen > 0`, tangential relative surface velocity computed AFTER the normal
impulse is applied, and impulses written with hoisted reciprocal factors
(`invMass`, `invInertiaB`, `invInertiaC`, `effMass`, which depend only on the
immutable radius/mass/inertia fields and are therefore loop-invariant). -/
def collide2 (s : SimSystem) : SimSystem :=
  let b := s.ball
  let c := s.container
  let rB := b.radius
  let rC := c.radius
  let maxDist := rC - rB
  let maxDistSq := maxDist * maxDist
  let invMass := 1 / b.mass
  let invInertiaB := 1 / b.inertia
  let invInertiaC := 1 / c.inertia
  let invM := invMass
  let invIb := (rB * rB) * invInertiaB
  let invIw := (rC * rC) * invInertiaC
  let effMass := 1 / (invM + invIb + invIw)
  let x := b.x
  let y := b.y
  let distSq := x * x + y * y
  if maxDistSq ≤ distSq then
    let dist := Real.sqrt distSq
    if dist ≤ 0 then s
    else
      let invDist := 1 / dist
      let nx := x * invDist
      let ny := y * invDist
      let pen := dist - maxDist
      let px := if 0 < pen then b.x - nx * pen else b.x
      let py := if 0 < pen then b.y - ny * pen else b.y
      let tx := -ny
      let ty := nx
      let vn := b.vx * nx + b.vy * ny
      if 0 < vn then
        let impulseN := -(1 + RESTITUTION_NORMAL) * vn
        let vx1 := b.vx + impulseN * nx
        let vy1 := b.vy + impulseN * ny
        let vtBallSurf := (vx1 * tx + vy1 * ty) + b.angularVelocity * rB
        let vtWallSurf := c.angularVelocity * rC
        let vRelTan := vtBallSurf - vtWallSurf
        let jt := -(1 + RESTITUTION_TANGENT) * vRelTan * effMass
        let jtInvMass := jt * invMass
        { s with
          ball :=
            { b with
              x := px
              y := py
              vx := vx1 + jtInvMass * tx
              vy := vy1 + jtInvMass * ty
              angularVelocity := b.angularVelocity + jt * rB * invInertiaB }
          container :=
            { c with
              angularVelocity := c.angularVelocity - jt * rC * invInertiaC } }
      else
        { s with ball := { b with x := px, y := py } }
  else s

/-- One loop iteration of the first revision of `SimSystem.update`. -/
def subStep1 (s : SimSystem) (subDt : ℝ) : SimSystem :=
  collide1 (integrate s subDt)

/-- One loop iteration of the second revision of `SimSystem.update`. -/
def subStep2 (s : SimSystem) (subDt : ℝ) : SimSystem :=
  collide2 (integrate s subDt)

/-- Models `Number.isFinite`: every value of the real-valued model is a finite
number, so the predicate is constantly `true` here.  (The `JsNum` model below
carries the honest predicate for non-finite values.) -/
def isFiniteNum (_ : ℝ) : Bool := true

/-- The correction scale exactly as the second revision of
`SimSystem.correctEnergy` computes and then applies it: the raw scale
`Math.sqrt(targetKE / currentKE)` after the clamp
`Math.max(0.99, Math.min(1.01, scale))`. -/
def clampedScale (initialEnergy : ℝ) (stats : EnergyStats) : ℝ :=
  let currentKE := stats.total - stats.pe
  let targetKE := initialEnergy - stats.pe
  max 0.99 (min 1.01 (Real.sqrt (targetKE / currentKE)))

/-- Embeds the SECOND revision of `SimSystem.correctEnergy(stats)`: the guard
`!this.initialEnergy || this.initialEnergy < 0.000001`, the two kinetic-energy
thresholds, the clamp of the raw scale `sqrt(targetKE / currentKE)` to
`[0.99, 1.01]` (see `clampedScale`), the `Number.isFinite` safety check on the
clamped scale, the conditional rescaling of the four velocity-like
quantities, and the returned total `stats.pe + currentKE * scale * scale`. -/
def correctEnergy (s : SimSystem) (stats : EnergyStats) : SimSystem × ℝ :=
  if s.initialEnergy = 0 ∨ s.initialEnergy < 0.000001 then (s, stats.total)
  else
    let currentKE := stats.total - stats.pe
    let targetKE := s.initialEnergy - stats.pe
    if 0.000001 < targetKE ∧ 0.000001 < currentKE then
      let scale := clampedScale s.initialEnergy stats
      if isFiniteNum scale = false then (s, stats.total)
      else
        let s' :=
          if scale ≠ 1 then
            { s with
              ball :=
                { s.ball with
                  vx := s.ball.vx * scale
                  vy := s.ball.vy * scale
                  angularVelocity := s.ball.angularVelocity * scale }
              container :=
                { s.container with
                  angularVelocity := s.container.angularVelocity * scale } }
          else s
        (s', stats.pe + currentKE * scale * scale)
    else (s, stats.total)

/-- Embeds the SECOND revision of `SimSystem.update(dt)`: 16 sub-steps of
integration plus collision handling, then the energy correction; returns the
updated system together with the corrected total energy. -/
def update (s : SimSystem) (dt : ℝ) : SimSystem × ℝ :=
  let subDt := dt / (SUB_STEPS : ℝ)
  let s' := (fun t => subStep2 t subDt)^[SUB_STEPS] s
  correctEnergy s' (calculateEnergy s')

/-- A state buffer: the contents of a `Float32Array`, one real per 32-bit
float slot.  Floating values are modelled as reals. -/
def byteLength (buf : List ℝ) : ℕ := 4 * buf.length

/-- Embeds the buffer check shared by the `update` and `reset` command
handlers: `if (!(buffer instanceof ArrayBuffer) || buffer.byteLength !==
expectedFloats * 4) buffer = new ArrayBuffer(expectedFloats * 4)`.  A missing
or non-`ArrayBuffer` value is modelled as `none`; a fresh `ArrayBuffer` is
zero-initialised. -/
def chooseBuffer (bufOpt : Option (List ℝ)) (expectedFloats : ℕ) : List ℝ :=
  match bufOpt with
  | some buffer =>
      if byteLength buffer = expectedFloats * 4 then buffer
      else List.replicate expectedFloats 0
  | none => List.replicate expectedFloats 0

/-- Embeds the four writes of one loop iteration of the `update`/`reset`
command handlers: `out[base] = s.ball.x; out[base + 1] = s.ball.y;
out[base + 2] = s.ball.angle; out[base + 3] = s.container.angle` with
`base = i * STATE_STRIDE`. -/
def writeSystem (out : List ℝ) (i : ℕ) (s : SimSystem) : List ℝ :=
  (((out.set (STATE_STRIDE * i) s.ball.x).set
      (STATE_STRIDE * i + 1) s.ball.y).set
      (STATE_STRIDE * i + 2) s.ball.angle).set
      (STATE_STRIDE * i + 3) s.container.angle

/-- The write loop of the command handlers, starting at system index `i`. -/
def writeFrom (out : List ℝ) (i : ℕ) : List SimSystem → List ℝ
  | [] => out
  | s :: rest => writeFrom (writeSystem out i s) (i + 1) rest

/-- The full write loop: every owned system's 4-tuple is written at its
stride offset. -/
def writeAll (out : List ℝ) (systems : List SimSystem) : List ℝ :=
  writeFrom out 0 systems

/-- The module-level worker state: `let systems = []; let systemIds = []`. -/
structure WorkerState where
  systems : List SimSystem
  systemIds : List ℤ

/-- Embeds the `init` command case: `systemIds = msg.systemIds ?? ...;
systems = systemIds.map((id) => new SimSystem(id))`. -/
def initCommand (ids : List ℤ) : WorkerState :=
  { systems := ids.map (fun id : ℤ => reset (id : ℝ)), systemIds := ids }

/-- Embeds `expectedFloats = systems.length * STATE_STRIDE`. -/
def expectedFloats (w : WorkerState) : ℕ := w.systems.length * STATE_STRIDE

/-- Embeds the `update` command case: choose/allocate the output buffer, run
`update(dt)` on every owned system accumulating the returned corrected
energies, and write each system's (ballX, ballY, ballAngle, containerAngle)
at its stride offset.  The loop body's three effects (state mutation, energy
accumulation, buffer writes at disjoint offsets) are independent, so the loop
is modelled as a map, a sum, and the write loop. -/
def updateCommand (w : WorkerState) (dt : ℝ) (bufOpt : Option (List ℝ)) :
    WorkerState × List ℝ × ℝ :=
  let buffer := chooseBuffer bufOpt (expectedFloats w)
  let results := w.systems.map (fun s => update s dt)
  let systems' := results.map Prod.fst
  let totalEnergy := (results.map Prod.snd).sum
  let out := writeAll buffer systems'
  ({ systems := systems', systemIds := w.systemIds }, out, totalEnergy)

/-- Embeds the `reset` command case: choose/allocate the output buffer, call
`s.reset(s.id)` on every owned system, accumulate `s.initialEnergy`, and
write each reset system's 4-tuple at its stride offset. -/
def resetCommand (w : WorkerState) (bufOpt : Option (List ℝ)) :
    WorkerState × List ℝ × ℝ :=
  let buffer := chooseBuffer bufOpt (expectedFloats w)
  let systems' := w.systems.map (fun s => reset s.id)
  let totalEnergy := (systems'.map (fun s => s.initialEnergy)).sum
  let out := writeAll buffer systems'
  ({ systems := systems', systemIds := w.systemIds }, out, totalEnergy)

/-- A JavaScript number for the non-finite-value analysis of `correctEnergy`:
either a finite value (carried exactly as a rational), positive infinity,
negative infinity, or NaN.  Finite arithmetic is exact (no rounding); the
propagation rules for infinities and NaN follow IEEE-754 / JavaScript. -/
inductive JsNum where
  | fin (q : ℚ)
  | inf
  | ninf
  | nan
  deriving DecidableEq

/-- JavaScript unary minus on `JsNum`. -/
def jsNeg : JsNum → JsNum
  | .fin q => .fin (-q)
  | .inf => .ninf
  | .ninf => .inf
  | .nan => .nan

/-- JavaScript addition on `JsNum`. -/
def jsAdd : JsNum → JsNum → JsNum
  | .nan, _ => .nan
  | _, .nan => .nan
  | .fin a, .fin b => .fin (a + b)
  | .fin _, .inf => .inf
  | .inf, .fin _ => .inf
  | .fin _, .ninf => .ninf
  | .ninf, .fin _ => .ninf
  | .inf, .inf => .inf
  | .ninf, .ninf => .ninf
  | .inf, .ninf => .nan
  | .ninf, .inf => .nan

/-- JavaScript subtraction on `JsNum`. -/
def jsSub (a b : JsNum) : JsNum := jsAdd a (jsNeg b)

/-- JavaScript multiplication on `JsNum` (a finite factor of zero times an
infinity is NaN; otherwise signs multiply). -/
def jsMul : JsNum → JsNum → JsNum
  | .nan, _ => .nan
  | _, .nan => .nan
  | .fin a, .fin b => .fin (a * b)
  | .fin a, .inf => if a = 0 then .nan else if 0 < a then .inf else .ninf
  | .inf, .fin b => if b = 0 then .nan else if 0 < b then .inf else .ninf
  | .fin a, .ninf => if a = 0 then .nan else if 0 < a then .ninf else .inf
  | .ninf, .fin b => if b = 0 then .nan else if 0 < b then .ninf else .inf
  | .inf, .inf => .inf
  | .inf, .ninf => .ninf
  | .ninf, .inf => .ninf
  | .ninf, .ninf => .inf

/-- JavaScript division on `JsNum` (division by zero of a nonzero finite
value gives a signed infinity, zero over zero and infinity over infinity give
NaN; rationals have no signed zero, so the finite zero divisor counts as
positive zero). -/
def jsDiv : JsNum → JsNum → JsNum
  | .nan, _ => .nan
  | _, .nan => .nan
  | .fin a, .fin b =>
      if b = 0 then if a = 0 then .nan else if 0 < a then .inf else .ninf
      else .fin (a / b)
  | .fin _, .inf => .fin 0
  | .fin _, .ninf => .fin 0
  | .inf, .fin b => if 0 ≤ b then .inf else .ninf
  | .ninf, .fin b => if 0 ≤ b then .ninf else .inf
  | .inf, .inf => .nan
  | .inf, .ninf => .nan
  | .ninf, .inf => .nan
  | .ninf, .ninf => .nan

/-- JavaScript `Math.sqrt` on `JsNum`.  The value of a square root of a
nonnegative finite rational generally lies outside `ℚ`, so the finite branch
is an unspecified parameter `sqrtFin`; no theorem below depends on its
values (the non-finite-handling claim is settled by the constructor-level
propagation alone, uniformly in `sqrtFin`). -/
def jsSqrt (sqrtFin : ℚ → ℚ) : JsNum → JsNum
  | .nan => .nan
  | .inf => .inf
  | .ninf => .nan
  | .fin q => if q < 0 then .nan else .fin (sqrtFin q)

/-- JavaScript `<` on `JsNum` (any comparison involving NaN is false). -/
def jsLt : JsNum → JsNum → Bool
  | .nan, _ => false
  | _, .nan => false
  | .fin a, .fin b => decide (a < b)
  | .fin _, .inf => true
  | .inf, .fin _ => false
  | .ninf, .fin _ => true
  | .fin _, .ninf => false
  | .inf, .inf => false
  | .ninf, .ninf => false
  | .ninf, .inf => true
  | .inf, .ninf => false

/-- JavaScript `Math.min` on `JsNum` (NaN if either argument is NaN). -/
def jsMin (a b : JsNum) : JsNum :=
  match a, b with
  | .nan, _ => .nan
  | _, .nan => .nan
  | x, y => if jsLt x y then x else y

/-- JavaScript `Math.max` on `JsNum` (NaN if either argument is NaN). -/
def jsMax (a b : JsNum) : JsNum :=
  match a, b with
  | .nan, _ => .nan
  | _, .nan => .nan
  | x, y => if jsLt x y then y else x

/-- JavaScript `Number.isFinite` on `JsNum`. -/
def jsFinite : JsNum → Bool
  | .fin _ => true
  | _ => false

/-- JavaScript truthiness of a number (`0`, `-0` and `NaN` are falsy). -/
def jsTruthy : JsNum → Bool
  | .fin q => decide (q ≠ 0)
  | .nan => false
  | _ => true

/-- The ball object over `JsNum`. -/
structure JsBall where
  x : JsNum
  y : JsNum
  vx : JsNum
  vy : JsNum
  angle : JsNum
  angularVelocity : JsNum
  radius : JsNum
  mass : JsNum
  inertia : JsNum

/-- The container object over `JsNum`. -/
structure JsContainer where
  angle : JsNum
  angularVelocity : JsNum
  radius : JsNum
  mass : JsNum
  inertia : JsNum

/-- A `SimSystem` state over `JsNum`. -/
structure JsSystem where
  id : JsNum
  ball : JsBall
  container : JsContainer
  initialEnergy : JsNum

/-- The record returned by `calculateEnergy`, over `JsNum`. -/
structure JsEnergyStats where
  total : JsNum
  pe : JsNum

/-- The constant `GRAVITY = 9.81 * 100` as a `JsNum`. -/
def jsGRAVITY : JsNum := .fin (9.81 * 100)

/-- Embeds `SimSystem.calculateEnergy` over `JsNum`. -/
def jsCalculateEnergy (s : JsSystem) : JsEnergyStats :=
  let b := s.ball
  let c := s.container
  let v2 := jsAdd (jsMul b.vx b.vx) (jsMul b.vy b.vy)
  let keLin := jsMul (jsMul (.fin 0.5) b.mass) v2
  let keRotB := jsMul (jsMul (.fin 0.5) b.inertia) (jsMul b.angularVelocity b.angularVelocity)
  let keRotC := jsMul (jsMul (.fin 0.5) c.inertia) (jsMul c.angularVelocity c.angularVelocity)
  let pe := jsMul (jsMul (jsNeg b.mass) jsGRAVITY) b.y
  { total := jsAdd (jsAdd (jsAdd keLin keRotB) keRotC) pe, pe := pe }

/-- The correction scale exactly as the second revision of
`SimSystem.correctEnergy` computes and then tests it: the raw scale
`Math.sqrt(targetKE / currentKE)` after the clamp
`Math.max(0.99, Math.min(1.01, scale))`. -/
def jsScale (sqrtFin : ℚ → ℚ) (s : JsSystem) (stats : JsEnergyStats) : JsNum :=
  let currentKE := jsSub stats.total stats.pe
  let targetKE := jsSub s.initialEnergy stats.pe
  jsMax (.fin 0.99) (jsMin (.fin 1.01) (jsSqrt sqrtFin (jsDiv targetKE currentKE)))

/-- Embeds the second revision of `SimSystem.correctEnergy(stats)` over
`JsNum`, including the `Number.isFinite` safety check on the clamped scale. -/
def jsCorrectEnergy (sqrtFin : ℚ → ℚ) (s : JsSystem) (stats : JsEnergyStats) :
    JsSystem × JsNum :=
  if jsTruthy s.initialEnergy = false ∨ jsLt s.initialEnergy (.fin 0.000001) = true then
    (s, stats.total)
  else
    let currentKE := jsSub stats.total stats.pe
    let targetKE := jsSub s.initialEnergy stats.pe
    if jsLt (.fin 0.000001) targetKE = true ∧ jsLt (.fin 0.000001) currentKE = true then
      let scale := jsScale sqrtFin s stats
      if jsFinite scale = false then (s, stats.total)
      else
        let s' :=
          if scale ≠ .fin 1 then
            { s with
              ball :=
                { s.ball with
                  vx := jsMul s.ball.vx scale
                  vy := jsMul s.ball.vy scale
                  angularVelocity := jsMul s.ball.angularVelocity scale }
              container :=
                { s.container with
                  angularVelocity := jsMul s.container.angularVelocity scale } }
          else s
        (s', jsAdd stats.pe (jsMul (jsMul currentKE scale) scale))
    else (s, stats.total)

/-- A concrete system used to exercise the energy correction: a freshly reset
system given a horizontal velocity and a baseline 20 units above its
potential energy. -/
def c2System : SimSystem :=
  let s := reset 0
  { s with ball := { s.ball with vx := 4 }, initialEnergy := 2158220 }

/-- A concrete system whose ball sits exactly at the container center. -/
def c7System : SimSystem :=
  let s := reset 0
  { s with ball := { s.ball with x := 0, y := 0 } }

/-- A concrete `JsNum` system on which the raw correction scale is computed
as `sqrt(Infinity / Infinity) = NaN`: the stored baseline is `Infinity` and
the ball has infinite horizontal velocity. -/
def c6System : JsSystem :=
  { id := .fin 0
    ball :=
      { x := .fin 1
        y := .fin (-220)
        vx := .inf
        vy := .fin 0
        angle := .fin 0
        angularVelocity := .fin 0
        radius := .fin 30
        mass := .fin 10
        inertia := .fin 4500 }
    container :=
      { angle := .fin 0
        angularVelocity := .fin 0
        radius := .fin 300
        mass := .fin 200
        inertia := .fin 18000000 }
    initialEnergy := .inf }

end

/-! ## Theorems -/

section

/-- C1, counterexample: the spec computes the reset offset from the number of
ids in the shard.  For the shard initialised with the two ids `[0, 1]`, the
system of id 1 would then start at `x = 1 + (1/2)*0.02 - 0.01 = 1`, but the
code divides by the fixed constant `NUM_SYSTEMS = 64` and places it at
`x = 1 + (1/64)*0.02 - 0.01 = 0.9903125`. -/
theorem c1_offset_divisor_cex :
    (initCommand [0, 1]).systems[1]? = some (reset ((1 : ℤ) : ℝ))
    ∧ (reset ((1 : ℤ) : ℝ)).ball.x ≠ 1 + ((1 : ℝ) / 2) * 0.02 - 0.01 := by
  refine ⟨rfl, ?_⟩
  rw [show (reset ((1 : ℤ) : ℝ)).ball.x
      = 1 + (((1 : ℤ) : ℝ) / NUM_SYSTEMS * 0.02 - 0.01) from rfl, NUM_SYSTEMS]
  push_cast
  norm_num

/-- C1, amended: `initialize` creates one system per id, in order, and for
every id the reset ball starts at `x = 1 + (id / 64) * 0.02 - 0.01` — the
divisor is the fixed module constant `NUM_SYSTEMS = 64`, not the count of ids
in the shard — with `y = -220` and all velocities, angular velocities and
angles zero. -/
theorem c1_reset_start_amended (ids : List ℤ) (i : Fin ids.length) :
    (initCommand ids).systems[i.val]? = some (reset ((ids.get i : ℤ) : ℝ))
    ∧ ∀ id : ℝ,
        (reset id).ball.x = 1 + (id / 64 * 0.02 - 0.01)
        ∧ (reset id).ball.y = -220
        ∧ (reset id).ball.vx = 0
        ∧ (reset id).ball.vy = 0
        ∧ (reset id).ball.angularVelocity = 0
        ∧ (reset id).ball.angle = 0
        ∧ (reset id).container.angularVelocity = 0
        ∧ (reset id).container.angle = 0 := by
  constructor
  · show (ids.map (fun id : ℤ => reset (id : ℝ)))[i.val]? = _
    rw [List.getElem?_map, List.getElem?_eq_getElem i.isLt, Option.map_some']
    rfl
  · intro id
    refine ⟨?_, rfl, rfl, rfl, rfl, rfl, rfl, rfl⟩
    show 1 + (id / NUM_SYSTEMS * 0.02 - 0.01) = _
    rw [NUM_SYSTEMS]

/-- Helper: when none of the skip guards fires, `correctEnergy` multiplies
the four velocity-like quantities by the clamped scale (also when the scale
equals 1, in which case the multiplication is the identity) and returns
`pe + currentKE * scale * scale`. -/
theorem correctEnergy_applied (s : SimSystem) (stats : EnergyStats)
    (h1 : ¬(s.initialEnergy = 0 ∨ s.initialEnergy < 0.000001))
    (h2 : 0.000001 < s.initialEnergy - stats.pe)
    (h3 : 0.000001 < stats.total - stats.pe) :
    correctEnergy s stats =
      ({ s with
          ball :=
            { s.ball with
              vx := s.ball.vx * clampedScale s.initialEnergy stats
              vy := s.ball.vy * clampedScale s.initialEnergy stats
              angularVelocity :=
                s.ball.angularVelocity * clampedScale s.initialEnergy stats }
          container :=
            { s.container with
              angularVelocity :=
                s.container.angularVelocity * clampedScale s.initialEnergy stats } },
        stats.pe + (stats.total - stats.pe) * clampedScale s.initialEnergy stats
          * clampedScale s.initialEnergy stats) := by
  simp only [correctEnergy]
  rw [if_neg h1, if_pos ⟨h2, h3⟩]
  simp only [isFiniteNum, Bool.true_eq_false, if_false]
  by_cases hs : clampedScale s.initialEnergy stats = 1
  · rw [if_neg (not_not_intro hs), hs]
    simp [mul_one]
  · rw [if_pos hs]

/-- C2: when the correction applies (stored baseline at least the 1e-6
threshold and both the current and target kinetic energies above 1e-6), the
scale actually used is the raw `sqrt(targetKE / currentKE)` clamped to
`[0.99, 1.01]`; all four velocity-like quantities are multiplied by that same
clamped scale, so no velocity magnitude changes by more than 1 percent per
call; and the returned total equals `pe + currentKE * scale^2`. -/
theorem c2_correction_clamped (s : SimSystem)
    (hInit : 0.000001 ≤ s.initialEnergy)
    (hT : 0.000001 < s.initialEnergy - (calculateEnergy s).pe)
    (hC : 0.000001 < (calculateEnergy s).total - (calculateEnergy s).pe) :
    0.99 ≤ clampedScale s.initialEnergy (calculateEnergy s)
    ∧ clampedScale s.initialEnergy (calculateEnergy s) ≤ 1.01
    ∧ (correctEnergy s (calculateEnergy s)).1.ball.vx
        = s.ball.vx * clampedScale s.initialEnergy (calculateEnergy s)
    ∧ (correctEnergy s (calculateEnergy s)).1.ball.vy
        = s.ball.vy * clampedScale s.initialEnergy (calculateEnergy s)
    ∧ (correctEnergy s (calculateEnergy s)).1.ball.angularVelocity
        = s.ball.angularVelocity * clampedScale s.initialEnergy (calculateEnergy s)
    ∧ (correctEnergy s (calculateEnergy s)).1.container.angularVelocity
        = s.container.angularVelocity * clampedScale s.initialEnergy (calculateEnergy s)
    ∧ |(correctEnergy s (calculateEnergy s)).1.ball.vx - s.ball.vx|
        ≤ 0.01 * |s.ball.vx|
    ∧ |(correctEnergy s (calculateEnergy s)).1.ball.vy - s.ball.vy|
        ≤ 0.01 * |s.ball.vy|
    ∧ |(correctEnergy s (calculateEnergy s)).1.ball.angularVelocity
        - s.ball.angularVelocity| ≤ 0.01 * |s.ball.angularVelocity|
    ∧ |(correctEnergy s (calculateEnergy s)).1.container.angularVelocity
        - s.container.angularVelocity| ≤ 0.01 * |s.container.angularVelocity|
    ∧ (correctEnergy s (calculateEnergy s)).2
        = (calculateEnergy s).pe
          + ((calculateEnergy s).total - (calculateEnergy s).pe)
            * clampedScale s.initialEnergy (calculateEnergy s)
            * clampedScale s.initialEnergy (calculateEnergy s) := by
  have h1 : ¬(s.initialEnergy = 0 ∨ s.initialEnergy < 0.000001) := by
    push_neg
    exact ⟨by intro h0; rw [h0] at hInit; norm_num at hInit, hInit⟩
  have happ := correctEnergy_applied s (calculateEnergy s) h1 hT hC
  have h99 : (0.99 : ℝ) ≤ clampedScale s.initialEnergy (calculateEnergy s) :=
    le_max_left _ _
  have h101 : clampedScale s.initialEnergy (calculateEnergy s) ≤ 1.01 :=
    max_le (by norm_num) (min_le_left _ _)
  have habs : ∀ v : ℝ,
      |v * clampedScale s.initialEnergy (calculateEnergy s) - v| ≤ 0.01 * |v| := by
    intro v
    have : v * clampedScale s.initialEnergy (calculateEnergy s) - v
        = v * (clampedScale s.initialEnergy (calculateEnergy s) - 1) := by ring
    rw [this, abs_mul, mul_comm]
    have hd : |clampedScale s.initialEnergy (calculateEnergy s) - 1| ≤ 0.01 :=
      abs_le.mpr ⟨by linarith, by linarith⟩
    exact mul_le_mul_of_nonneg_right hd (abs_nonneg v)
  rw [happ]
  exact ⟨h99, h101, rfl, rfl, rfl, rfl, habs _, habs _, habs _, habs _, rfl⟩

/-- Witness for C2: a freshly reset system with horizontal speed 4 and a
baseline 20 above its potential energy satisfies all three application
conditions, and the theorem instantiates on it. -/
theorem c2_correction_clamped_witness :
    (0.000001 ≤ c2System.initialEnergy
      ∧ 0.000001 < c2System.initialEnergy - (calculateEnergy c2System).pe
      ∧ 0.000001 < (calculateEnergy c2System).total - (calculateEnergy c2System).pe)
    ∧ (0.99 ≤ clampedScale c2System.initialEnergy (calculateEnergy c2System)
        ∧ clampedScale c2System.initialEnergy (calculateEnergy c2System) ≤ 1.01) := by
  have hInit : (0.000001 : ℝ) ≤ c2System.initialEnergy := by
    norm_num [c2System, reset]
  have hT : (0.000001 : ℝ) < c2System.initialEnergy - (calculateEnergy c2System).pe := by
    norm_num [c2System, calculateEnergy, reset, GRAVITY, BALL_MASS]
  have hC : (0.000001 : ℝ)
      < (calculateEnergy c2System).total - (calculateEnergy c2System).pe := by
    norm_num [c2System, calculateEnergy, reset, GRAVITY, BALL_MASS, BALL_RADIUS,
      CONTAINER_MASS, CONTAINER_RADIUS]
  have h := c2_correction_clamped c2System hInit hT hC
  exact ⟨⟨hInit, hT, hC⟩, h.1, h.2.1⟩

/-- C6: whenever the correction scale that `correctEnergy` computes and then
tests (the clamped scale, see `jsScale`) is not a finite number, the
correction is skipped: the system — in particular all four velocity-like
quantities — is left unchanged and the uncorrected total energy is
returned. -/
theorem c6_nonfinite_scale_skipped (sqrtFin : ℚ → ℚ) (s : JsSystem)
    (h : jsFinite (jsScale sqrtFin s (jsCalculateEnergy s)) = false) :
    jsCorrectEnergy sqrtFin s (jsCalculateEnergy s)
      = (s, (jsCalculateEnergy s).total) := by
  simp only [jsCorrectEnergy]
  split_ifs <;> simp_all

/-- Witness for C6: on `c6System` (baseline `Infinity`, infinite horizontal
speed) the raw scale is `sqrt(Infinity / Infinity) = NaN`, the clamp
propagates the NaN, the finiteness test fails, and the correction is
skipped. -/
theorem c6_nonfinite_scale_skipped_witness :
    jsFinite (jsScale id c6System (jsCalculateEnergy c6System)) = false
    ∧ jsCorrectEnergy id c6System (jsCalculateEnergy c6System)
        = (c6System, (jsCalculateEnergy c6System).total) :=
  ⟨by norm_num [c6System, jsCalculateEnergy, jsScale, jsMul, jsAdd, jsSub, jsNeg,
      jsDiv, jsSqrt, jsMin, jsMax, jsLt, jsFinite, jsGRAVITY],
    c6_nonfinite_scale_skipped id c6System
      (by norm_num [c6System, jsCalculateEnergy, jsScale, jsMul, jsAdd, jsSub, jsNeg,
        jsDiv, jsSqrt, jsMin, jsMax, jsLt, jsFinite, jsGRAVITY])⟩

/-- C7: if at the collision test of a sub-step the ball lies exactly at the
container center (distance zero), the collision phase of the current revision
leaves the system unchanged: no outward normal is formed (so the division by
`dist` is never reached) and no response is applied, so all velocities are
untouched for that sub-step. -/
theorem c7_center_collision_skipped (s : SimSystem)
    (hx : s.ball.x = 0) (hy : s.ball.y = 0) : collide2 s = s := by
  simp [collide2, hx, hy]

/-- Witness for C7: a reset system moved to the exact container center. -/
theorem c7_center_collision_skipped_witness :
    c7System.ball.x = 0 ∧ c7System.ball.y = 0 ∧ collide2 c7System = c7System :=
  ⟨rfl, rfl, c7_center_collision_skipped c7System rfl rfl⟩

/-- Helper: the four writes of one loop iteration preserve the buffer
length. -/
theorem length_writeSystem (out : List ℝ) (i : ℕ) (s : SimSystem) :
    (writeSystem out i s).length = out.length := by
  simp [writeSystem]

/-- Helper: the write loop preserves the buffer length. -/
theorem length_writeFrom (systems : List SimSystem) (out : List ℝ) (i : ℕ) :
    (writeFrom out i systems).length = out.length := by
  induction systems generalizing out i with
  | nil => rfl
  | cons s rest ih => rw [writeFrom, ih, length_writeSystem]

/-- Helper: one loop iteration does not touch slots below its stride
offset. -/
theorem writeSystem_untouched (out : List ℝ) (i : ℕ) (s : SimSystem) (j : ℕ)
    (hj : j < STATE_STRIDE * i) : (writeSystem out i s)[j]? = out[j]? := by
  have h0 : STATE_STRIDE * i ≠ j := by omega
  have h1 : STATE_STRIDE * i + 1 ≠ j := by omega
  have h2 : STATE_STRIDE * i + 2 ≠ j := by omega
  have h3 : STATE_STRIDE * i + 3 ≠ j := by omega
  unfold writeSystem
  rw [List.getElem?_set_ne h3, List.getElem?_set_ne h2, List.getElem?_set_ne h1,
    List.getElem?_set_ne h0]

/-- Helper: the write loop starting at system index `i` does not touch slots
below stride offset `i`. -/
theorem writeFrom_untouched (systems : List SimSystem) (out : List ℝ) (i j : ℕ)
    (hj : j < STATE_STRIDE * i) : (writeFrom out i systems)[j]? = out[j]? := by
  induction systems generalizing out i with
  | nil => rfl
  | cons s rest ih =>
      rw [writeFrom, ih (writeSystem out i s) (i + 1)
        (by simp only [STATE_STRIDE] at hj ⊢; omega)]
      exact writeSystem_untouched out i s j hj

/-- Helper: the four slots of one loop iteration hold the written 4-tuple. -/
theorem writeSystem_reads (out : List ℝ) (i : ℕ) (s : SimSystem)
    (hlen : STATE_STRIDE * i + 3 < out.length) :
    (writeSystem out i s)[STATE_STRIDE * i]? = some s.ball.x
    ∧ (writeSystem out i s)[STATE_STRIDE * i + 1]? = some s.ball.y
    ∧ (writeSystem out i s)[STATE_STRIDE * i + 2]? = some s.ball.angle
    ∧ (writeSystem out i s)[STATE_STRIDE * i + 3]? = some s.container.angle := by
  unfold writeSystem
  refine ⟨?_, ?_, ?_, ?_⟩
  · rw [List.getElem?_set_ne (by omega), List.getElem?_set_ne (by omega),
      List.getElem?_set_ne (by omega),
      List.getElem?_set_eq_of_lt _ (by omega)]
  · rw [List.getElem?_set_ne (by omega), List.getElem?_set_ne (by omega),
      List.getElem?_set_eq_of_lt _ (by simp only [List.length_set]; omega)]
  · rw [List.getElem?_set_ne (by omega),
      List.getElem?_set_eq_of_lt _ (by simp only [List.length_set]; omega)]
  · rw [List.getElem?_set_eq_of_lt _ (by simp only [List.length_set]; omega)]

/-- Helper: after the write loop over a full buffer, the 4-tuple at stride
offset `i + t` is the serialization of the `t`-th system of the remaining
list. -/
theorem writeFrom_reads (systems : List SimSystem) (out : List ℝ) (i t : ℕ)
    (ht : t < systems.length)
    (hlen : out.length = STATE_STRIDE * (i + systems.length)) :
    (writeFrom out i systems)[STATE_STRIDE * (i + t)]?
        = some (systems.get ⟨t, ht⟩).ball.x
    ∧ (writeFrom out i systems)[STATE_STRIDE * (i + t) + 1]?
        = some (systems.get ⟨t, ht⟩).ball.y
    ∧ (writeFrom out i systems)[STATE_STRIDE * (i + t) + 2]?
        = some (systems.get ⟨t, ht⟩).ball.angle
    ∧ (writeFrom out i systems)[STATE_STRIDE * (i + t) + 3]?
        = some (systems.get ⟨t, ht⟩).container.angle := by
  induction systems generalizing out i t with
  | nil => exact absurd ht (by simp)
  | cons s rest ih =>
      cases t with
      | zero =>
          have hw := writeSystem_reads out i s
            (by simp only [STATE_STRIDE, List.length_cons] at hlen ⊢; omega)
          have hfit : ∀ k, k < 4 →
              STATE_STRIDE * (i + 0) + k < STATE_STRIDE * (i + 1) := by
            intro k hk
            simp only [STATE_STRIDE]
            omega
          rw [writeFrom]
          refine ⟨?_, ?_, ?_, ?_⟩
          · rw [writeFrom_untouched rest _ (i + 1) _
              (by simpa using hfit 0 (by omega))]
            simpa using hw.1
          · rw [writeFrom_untouched rest _ (i + 1) _ (hfit 1 (by omega))]
            simpa using hw.2.1
          · rw [writeFrom_untouched rest _ (i + 1) _ (hfit 2 (by omega))]
            simpa using hw.2.2.1
          · rw [writeFrom_untouched rest _ (i + 1) _ (hfit 3 (by omega))]
            simpa using hw.2.2.2
      | succ t' =>
          have harith : i + (t' + 1) = (i + 1) + t' := by omega
          have hlen' : (writeSystem out i s).length
              = STATE_STRIDE * ((i + 1) + rest.length) := by
            rw [length_writeSystem, hlen]
            simp only [STATE_STRIDE, List.length_cons]
            omega
          have := ih (writeSystem out i s) (i + 1) t' (by simpa using ht) hlen'
          rw [writeFrom, harith]
          simpa using this

/-- Helper: the buffer chosen by the command handlers always has exactly
`expectedFloats` slots. -/
theorem length_chooseBuffer (bufOpt : Option (List ℝ)) (n : ℕ) :
    (chooseBuffer bufOpt n).length = n := by
  cases bufOpt with
  | none => simp [chooseBuffer]
  | some b =>
      simp only [chooseBuffer, byteLength]
      split_ifs with h
      · omega
      · simp

/-- Helper: the write loop over a full buffer is insensitive to the initial
buffer contents (every slot is overwritten). -/
theorem writeAll_congr (systems : List SimSystem) (out₁ out₂ : List ℝ)
    (h1 : out₁.length = STATE_STRIDE * systems.length)
    (h2 : out₂.length = STATE_STRIDE * systems.length) :
    writeAll out₁ systems = writeAll out₂ systems := by
  apply List.ext_getElem?
  intro j
  by_cases hj : j < STATE_STRIDE * systems.length
  · obtain ⟨t, k, ht, hk, rfl⟩ :
        ∃ t k, t < systems.length ∧ k < 4 ∧ j = STATE_STRIDE * t + k := by
      refine ⟨j / 4, j % 4, ?_, ?_, ?_⟩ <;> simp only [STATE_STRIDE] at hj ⊢ <;> omega
    have r1 := writeFrom_reads systems out₁ 0 t ht (by simpa using h1)
    have r2 := writeFrom_reads systems out₂ 0 t ht (by simpa using h2)
    simp only [Nat.zero_add] at r1 r2
    unfold writeAll
    interval_cases k
    · simpa using r1.1.trans r2.1.symm
    · exact r1.2.1.trans r2.2.1.symm
    · exact r1.2.2.1.trans r2.2.2.1.symm
    · exact r1.2.2.2.trans r2.2.2.2.symm
  · rw [List.getElem?_eq_none, List.getElem?_eq_none]
    · unfold writeAll; rw [length_writeFrom, h2]; omega
    · unfold writeAll; rw [length_writeFrom, h1]; omega

/-- Helper: decoding the 4-tuple at stride offset `i` of a fully written
buffer yields the serialized fields of the `i`-th system. -/
theorem writeAll_reads (systems : List SimSystem) (out : List ℝ)
    (hlen : out.length = STATE_STRIDE * systems.length) (i : ℕ)
    (hi : i < systems.length) :
    (writeAll out systems)[STATE_STRIDE * i]?
        = (systems[i]?).map (fun s => s.ball.x)
    ∧ (writeAll out systems)[STATE_STRIDE * i + 1]?
        = (systems[i]?).map (fun s => s.ball.y)
    ∧ (writeAll out systems)[STATE_STRIDE * i + 2]?
        = (systems[i]?).map (fun s => s.ball.angle)
    ∧ (writeAll out systems)[STATE_STRIDE * i + 3]?
        = (systems[i]?).map (fun s => s.container.angle) := by
  have h := writeFrom_reads systems out 0 i hi (by simpa using hlen)
  simp only [Nat.zero_add] at h
  have hsome : systems[i]? = some (systems.get ⟨i, hi⟩) := by
    rw [List.getElem?_eq_getElem hi]
    rfl
  unfold writeAll
  rw [hsome]
  simp only [Option.map_some']
  exact ⟨h.1, h.2.1, h.2.2.1, h.2.2.2⟩

/-- C5: for both the `update` and the `reset` command, the returned state
buffer has byte length exactly `4 * systemCount * 4`, and the 4-tuple of
32-bit float slots at float offset `4 * i` holds the current
(ballX, ballY, ballAngle, containerAngle) of the `i`-th system in the
shard's fixed order. -/
theorem c5_buffer_roundtrip (w : WorkerState) (dt : ℝ)
    (bufOpt bufOpt' : Option (List ℝ)) (i : ℕ) (hi : i < w.systems.length) :
    byteLength (updateCommand w dt bufOpt).2.1 = 4 * w.systems.length * 4
    ∧ (updateCommand w dt bufOpt).2.1[STATE_STRIDE * i]?
        = ((updateCommand w dt bufOpt).1.systems[i]?).map (fun s => s.ball.x)
    ∧ (updateCommand w dt bufOpt).2.1[STATE_STRIDE * i + 1]?
        = ((updateCommand w dt bufOpt).1.systems[i]?).map (fun s => s.ball.y)
    ∧ (updateCommand w dt bufOpt).2.1[STATE_STRIDE * i + 2]?
        = ((updateCommand w dt bufOpt).1.systems[i]?).map (fun s => s.ball.angle)
    ∧ (updateCommand w dt bufOpt).2.1[STATE_STRIDE * i + 3]?
        = ((updateCommand w dt bufOpt).1.systems[i]?).map (fun s => s.container.angle)
    ∧ byteLength (resetCommand w bufOpt').2.1 = 4 * w.systems.length * 4
    ∧ (resetCommand w bufOpt').2.1[STATE_STRIDE * i]?
        = ((resetCommand w bufOpt').1.systems[i]?).map (fun s => s.ball.x)
    ∧ (resetCommand w bufOpt').2.1[STATE_STRIDE * i + 1]?
        = ((resetCommand w bufOpt').1.systems[i]?).map (fun s => s.ball.y)
    ∧ (resetCommand w bufOpt').2.1[STATE_STRIDE * i + 2]?
        = ((resetCommand w bufOpt').1.systems[i]?).map (fun s => s.ball.angle)
    ∧ (resetCommand w bufOpt').2.1[STATE_STRIDE * i + 3]?
        = ((resetCommand w bufOpt').1.systems[i]?).map (fun s => s.container.angle) := by
  have hu : (updateCommand w dt bufOpt).2.1
      = writeAll (chooseBuffer bufOpt (expectedFloats w))
          ((w.systems.map (fun s => update s dt)).map Prod.fst) := rfl
  have husys : (updateCommand w dt bufOpt).1.systems
      = (w.systems.map (fun s => update s dt)).map Prod.fst := rfl
  have hr : (resetCommand w bufOpt').2.1
      = writeAll (chooseBuffer bufOpt' (expectedFloats w))
          (w.systems.map (fun s => reset s.id)) := rfl
  have hrsys : (resetCommand w bufOpt').1.systems
      = w.systems.map (fun s => reset s.id) := rfl
  have hulen : ((w.systems.map (fun s => update s dt)).map Prod.fst).length
      = w.systems.length := by simp
  have hrlen : (w.systems.map (fun s => reset s.id)).length = w.systems.length := by
    simp
  have hblenU : (chooseBuffer bufOpt (expectedFloats w)).length
      = STATE_STRIDE * ((w.systems.map (fun s => update s dt)).map Prod.fst).length := by
    rw [length_chooseBuffer, hulen]
    simp only [expectedFloats, STATE_STRIDE]
    omega
  have hblenR : (chooseBuffer bufOpt' (expectedFloats w)).length
      = STATE_STRIDE * (w.systems.map (fun s => reset s.id)).length := by
    rw [length_chooseBuffer, hrlen]
    simp only [expectedFloats, STATE_STRIDE]
    omega
  have hur := writeAll_reads _ _ hblenU i (by rw [hulen]; exact hi)
  have hrr := writeAll_reads _ _ hblenR i (by rw [hrlen]; exact hi)
  have hlenU : byteLength (updateCommand w dt bufOpt).2.1
      = 4 * w.systems.length * 4 := by
    rw [hu]
    unfold byteLength writeAll
    rw [length_writeFrom, length_chooseBuffer]
    simp only [expectedFloats, STATE_STRIDE]
    ring
  have hlenR : byteLength (resetCommand w bufOpt').2.1
      = 4 * w.systems.length * 4 := by
    rw [hr]
    unfold byteLength writeAll
    rw [length_writeFrom, length_chooseBuffer]
    simp only [expectedFloats, STATE_STRIDE]
    ring
  refine ⟨hlenU, ?_, ?_, ?_, ?_, hlenR, ?_, ?_, ?_, ?_⟩
  · rw [hu, husys]; exact hur.1
  · rw [hu, husys]; exact hur.2.1
  · rw [hu, husys]; exact hur.2.2.1
  · rw [hu, husys]; exact hur.2.2.2
  · rw [hr, hrsys]; exact hrr.1
  · rw [hr, hrsys]; exact hrr.2.1
  · rw [hr, hrsys]; exact hrr.2.2.1
  · rw [hr, hrsys]; exact hrr.2.2.2

/-- Witness for C5: a one-system shard, `dt = 0`, no reusable buffer,
index 0. -/
theorem c5_buffer_roundtrip_witness :
    0 < (initCommand [5]).systems.length
    ∧ (byteLength (updateCommand (initCommand [5]) 0 none).2.1
        = 4 * (initCommand [5]).systems.length * 4
      ∧ (updateCommand (initCommand [5]) 0 none).2.1[STATE_STRIDE * 0]?
          = ((updateCommand (initCommand [5]) 0 none).1.systems[0]?).map
              (fun s => s.ball.x)
      ∧ (updateCommand (initCommand [5]) 0 none).2.1[STATE_STRIDE * 0 + 1]?
          = ((updateCommand (initCommand [5]) 0 none).1.systems[0]?).map
              (fun s => s.ball.y)
      ∧ (updateCommand (initCommand [5]) 0 none).2.1[STATE_STRIDE * 0 + 2]?
          = ((updateCommand (initCommand [5]) 0 none).1.systems[0]?).map
              (fun s => s.ball.angle)
      ∧ (updateCommand (initCommand [5]) 0 none).2.1[STATE_STRIDE * 0 + 3]?
          = ((updateCommand (initCommand [5]) 0 none).1.systems[0]?).map
              (fun s => s.container.angle)
      ∧ byteLength (resetCommand (initCommand [5]) none).2.1
          = 4 * (initCommand [5]).systems.length * 4
      ∧ (resetCommand (initCommand [5]) none).2.1[STATE_STRIDE * 0]?
          = ((resetCommand (initCommand [5]) none).1.systems[0]?).map
              (fun s => s.ball.x)
      ∧ (resetCommand (initCommand [5]) none).2.1[STATE_STRIDE * 0 + 1]?
          = ((resetCommand (initCommand [5]) none).1.systems[0]?).map
              (fun s => s.ball.y)
      ∧ (resetCommand (initCommand [5]) none).2.1[STATE_STRIDE * 0 + 2]?
          = ((resetCommand (initCommand [5]) none).1.systems[0]?).map
              (fun s => s.ball.angle)
      ∧ (resetCommand (initCommand [5]) none).2.1[STATE_STRIDE * 0 + 3]?
          = ((resetCommand (initCommand [5]) none).1.systems[0]?).map
              (fun s => s.container.angle)) :=
  ⟨by simp [initCommand],
    c5_buffer_roundtrip (initCommand [5]) 0 none none 0 (by simp [initCommand])⟩

/-- C8: a supplied buffer of exactly the expected byte length is reused as
the output buffer; any other supplied value (wrong size, or no buffer at
all) makes the handler allocate a fresh zeroed buffer of the expected size,
and the command still succeeds — both command handlers are total and always
produce an output buffer of the expected byte length. -/
theorem c8_buffer_selfhealing (w : WorkerState) (dt : ℝ) (b : List ℝ) :
    (byteLength b = expectedFloats w * 4 →
      chooseBuffer (some b) (expectedFloats w) = b)
    ∧ (byteLength b ≠ expectedFloats w * 4 →
        chooseBuffer (some b) (expectedFloats w)
          = List.replicate (expectedFloats w) 0)
    ∧ chooseBuffer none (expectedFloats w) = List.replicate (expectedFloats w) 0
    ∧ byteLength (updateCommand w dt (some b)).2.1 = expectedFloats w * 4
    ∧ byteLength (resetCommand w (some b)).2.1 = expectedFloats w * 4 := by
  refine ⟨?_, ?_, rfl, ?_, ?_⟩
  · intro h
    simp only [chooseBuffer]
    rw [if_pos h]
  · intro h
    simp only [chooseBuffer]
    rw [if_neg h]
  · show byteLength (writeAll (chooseBuffer (some b) (expectedFloats w)) _)
        = expectedFloats w * 4
    unfold byteLength writeAll
    rw [length_writeFrom, length_chooseBuffer]
    ring
  · show byteLength (writeAll (chooseBuffer (some b) (expectedFloats w)) _)
        = expectedFloats w * 4
    unfold byteLength writeAll
    rw [length_writeFrom, length_chooseBuffer]
    ring

/-- Witness for C8: on a one-system shard (expected byte length 16), a
3-float buffer (12 bytes) is replaced by a fresh 4-float buffer while a
4-float buffer (16 bytes) is reused. -/
theorem c8_buffer_selfhealing_witness :
    byteLength (List.replicate 3 (0 : ℝ)) ≠ expectedFloats (initCommand [5]) * 4
    ∧ chooseBuffer (some (List.replicate 3 (0 : ℝ))) (expectedFloats (initCommand [5]))
        = List.replicate (expectedFloats (initCommand [5])) 0
    ∧ byteLength (List.replicate 4 (0 : ℝ)) = expectedFloats (initCommand [5]) * 4
    ∧ chooseBuffer (some (List.replicate 4 (0 : ℝ))) (expectedFloats (initCommand [5]))
        = List.replicate 4 (0 : ℝ) := by
  have hne : byteLength (List.replicate 3 (0 : ℝ))
      ≠ expectedFloats (initCommand [5]) * 4 := by
    simp [byteLength, expectedFloats, initCommand, STATE_STRIDE]
  have heq : byteLength (List.replicate 4 (0 : ℝ))
      = expectedFloats (initCommand [5]) * 4 := by
    simp [byteLength, expectedFloats, initCommand, STATE_STRIDE]
  exact ⟨hne, (c8_buffer_selfhealing (initCommand [5]) 0 (List.replicate 3 0)).2.1 hne,
    heq, (c8_buffer_selfhealing (initCommand [5]) 0 (List.replicate 4 0)).1 heq⟩

/-- C9: two `reset` commands in immediate succession produce identical
output buffer contents and identical aggregate energies, for any supplied
reusable buffers. -/
theorem c9_reset_idempotent (w : WorkerState) (b1 b2 : Option (List ℝ)) :
    (resetCommand (resetCommand w b1).1 b2).2.1 = (resetCommand w b1).2.1
    ∧ (resetCommand (resetCommand w b1).1 b2).2.2 = (resetCommand w b1).2.2 := by
  have hs1 : (resetCommand w b1).1.systems = w.systems.map (fun s => reset s.id) := rfl
  have hmm : (w.systems.map (fun s => reset s.id)).map (fun s => reset s.id)
      = w.systems.map (fun s => reset s.id) := by
    rw [List.map_map]
    rfl
  have hsys2 : (resetCommand w b1).1.systems.map (fun s => reset s.id)
      = w.systems.map (fun s => reset s.id) := by rw [hs1, hmm]
  have hexp : expectedFloats (resetCommand w b1).1 = expectedFloats w := by
    simp [expectedFloats, hs1]
  constructor
  · have hout2 : (resetCommand (resetCommand w b1).1 b2).2.1
        = writeAll (chooseBuffer b2 (expectedFloats (resetCommand w b1).1))
            ((resetCommand w b1).1.systems.map (fun s => reset s.id)) := rfl
    have hout1 : (resetCommand w b1).2.1
        = writeAll (chooseBuffer b1 (expectedFloats w))
            (w.systems.map (fun s => reset s.id)) := rfl
    rw [hout1, hout2, hsys2, hexp]
    apply writeAll_congr
    · rw [length_chooseBuffer]
      simp only [expectedFloats, STATE_STRIDE, List.length_map]
      omega
    · rw [length_chooseBuffer]
      simp only [expectedFloats, STATE_STRIDE, List.length_map]
      omega
  · have he2 : (resetCommand (resetCommand w b1).1 b2).2.2
        = (((resetCommand w b1).1.systems.map (fun s => reset s.id)).map
            (fun s => s.initialEnergy)).sum := rfl
    have he1 : (resetCommand w b1).2.2
        = ((w.systems.map (fun s => reset s.id)).map
            (fun s => s.initialEnergy)).sum := rfl
    rw [he1, he2, hsys2]

/-- Helper: the collision phase never changes the radius fields. -/
theorem collide2_radius (s : SimSystem) :
    (collide2 s).ball.radius = s.ball.radius
    ∧ (collide2 s).container.radius = s.container.radius := by
  simp only [collide2]
  split_ifs <;> exact ⟨rfl, rfl⟩

/-- Helper: a sub-step never changes the radius fields. -/
theorem subStep2_radius (s : SimSystem) (subDt : ℝ) :
    (subStep2 s subDt).ball.radius = s.ball.radius
    ∧ (subStep2 s subDt).container.radius = s.container.radius := by
  have h := collide2_radius (integrate s subDt)
  exact ⟨h.1, h.2⟩

/-- Helper: iterating sub-steps never changes the radius fields. -/
theorem iterate_subStep2_radius (n : ℕ) (s : SimSystem) (subDt : ℝ) :
    ((fun t => subStep2 t subDt)^[n] s).ball.radius = s.ball.radius
    ∧ ((fun t => subStep2 t subDt)^[n] s).container.radius
        = s.container.radius := by
  induction n generalizing s with
  | zero => exact ⟨rfl, rfl⟩
  | succ n ih =>
      rw [Function.iterate_succ_apply]
      have h := ih (subStep2 s subDt)
      have h2 := subStep2_radius s subDt
      exact ⟨h.1.trans h2.1, h.2.trans h2.2⟩

/-- Helper: the energy correction never changes the positions. -/
theorem correctEnergy_position (s : SimSystem) (stats : EnergyStats) :
    (correctEnergy s stats).1.ball.x = s.ball.x
    ∧ (correctEnergy s stats).1.ball.y = s.ball.y := by
  simp only [correctEnergy]
  split_ifs <;> exact ⟨rfl, rfl⟩

/-- Helper: after the collision phase the ball center lies within distance
`containerRadius - ballRadius = 270` of the container center, whatever the
incoming state was: either the branch was not entered (strictly inside), or
the penetration fix projects the center back onto the radius-270 circle. -/
theorem collide2_no_penetration (s : SimSystem)
    (hb : s.ball.radius = 30) (hc : s.container.radius = 300) :
    (collide2 s).ball.x ^ 2 + (collide2 s).ball.y ^ 2 ≤ 270 ^ 2 := by
  simp only [collide2, hb, hc]
  set x := s.ball.x with hx
  set y := s.ball.y with hy
  have hnn : (0 : ℝ) ≤ x * x + y * y := by nlinarith [sq_nonneg x, sq_nonneg y]
  set d := Real.sqrt (x * x + y * y) with hd
  have hd2 : d * d = x * x + y * y := Real.mul_self_sqrt hnn
  have hpush : 0 < d →
      (x - x * (1 / d) * (d - (300 - 30))) ^ 2
        + (y - y * (1 / d) * (d - (300 - 30))) ^ 2 = 270 ^ 2 := by
    intro hdpos
    have hdne : d ≠ 0 := ne_of_gt hdpos
    field_simp
    nlinarith [hd2]
  split_ifs with h1 h2 h3 h4 h5
  · -- entered, then dist ≤ 0: impossible since distSq ≥ 270² > 0
    exfalso
    have : (0 : ℝ) < d := Real.sqrt_pos.mpr (by nlinarith)
    linarith
  · -- entered, bounced, pushed: position projected onto the circle
    have := hpush (not_le.mp h2)
    dsimp only
    linarith [this]
  · -- entered, bounced, pen ≤ 0: dist = 270 exactly
    dsimp only
    have hge : (300 - 30 : ℝ) * (300 - 30) ≤ x * x + y * y := h1
    have hle : d - (300 - 30) ≤ 0 := by linarith [not_lt.mp h4]
    nlinarith [hd2]
  · -- entered, no bounce, pushed
    have := hpush (not_le.mp h2)
    dsimp only
    linarith [this]
  · -- entered, no bounce, pen ≤ 0
    dsimp only
    have hge : (300 - 30 : ℝ) * (300 - 30) ≤ x * x + y * y := h1
    have hle : d - (300 - 30) ≤ 0 := by linarith [not_lt.mp h5]
    nlinarith [hd2]
  · -- not entered: strictly inside
    have hlt : x * x + y * y < (300 - 30) * (300 - 30) := not_le.mp h1
    nlinarith

/-- C4: after any `advance(dt)` call, from any pre-state whose radii are the
simulation's constants, the distance from the container center to the ball
center is at most `containerRadius - ballRadius = 270`. -/
theorem c4_no_penetration_after_update (s : SimSystem) (dt : ℝ)
    (hb : s.ball.radius = 30) (hc : s.container.radius = 300) :
    Real.sqrt ((update s dt).1.ball.x ^ 2 + (update s dt).1.ball.y ^ 2) ≤ 270 := by
  have h16 : (fun t => subStep2 t (dt / (SUB_STEPS : ℝ)))^[SUB_STEPS] s
      = subStep2 ((fun t => subStep2 t (dt / (SUB_STEPS : ℝ)))^[15] s)
          (dt / (SUB_STEPS : ℝ)) := by
    rw [show SUB_STEPS = 15 + 1 from rfl, Function.iterate_succ_apply']
  have hrad := iterate_subStep2_radius 15 s (dt / (SUB_STEPS : ℝ))
  set s15 := (fun t => subStep2 t (dt / (SUB_STEPS : ℝ)))^[15] s with hs15
  have hib : (integrate s15 (dt / (SUB_STEPS : ℝ))).ball.radius = 30 :=
    hrad.1.trans hb
  have hic : (integrate s15 (dt / (SUB_STEPS : ℝ))).container.radius = 300 :=
    hrad.2.trans hc
  have hcol := collide2_no_penetration (integrate s15 (dt / (SUB_STEPS : ℝ))) hib hic
  have hposx := correctEnergy_position
    ((fun t => subStep2 t (dt / (SUB_STEPS : ℝ)))^[SUB_STEPS] s)
    (calculateEnergy ((fun t => subStep2 t (dt / (SUB_STEPS : ℝ)))^[SUB_STEPS] s))
  have hupd : (update s dt).1
      = (correctEnergy ((fun t => subStep2 t (dt / (SUB_STEPS : ℝ)))^[SUB_STEPS] s)
          (calculateEnergy ((fun t => subStep2 t (dt / (SUB_STEPS : ℝ)))^[SUB_STEPS] s))).1 := rfl
  rw [hupd, hposx.1, hposx.2, h16]
  rw [Real.sqrt_le_left (by norm_num)]
  exact hcol

/-- Witness for C4: a freshly reset system advanced by `dt = 0` stays within
the wall. -/
theorem c4_no_penetration_after_update_witness :
    (reset 0).ball.radius = 30 ∧ (reset 0).container.radius = 300
    ∧ Real.sqrt ((update (reset 0) 0).1.ball.x ^ 2
        + (update (reset 0) 0).1.ball.y ^ 2) ≤ 270 :=
  ⟨rfl, rfl, c4_no_penetration_after_update (reset 0) 0 rfl rfl⟩

/-- Helper: in exact real arithmetic the two revisions of the collision phase
agree on every state whose ball mass is nonzero and whose ball radius is
smaller than the container radius (as holds for every state the simulation
constructs). -/
theorem collide1_eq_collide2 (s : SimSystem)
    (hm : s.ball.mass ≠ 0) (hr : s.ball.radius < s.container.radius) :
    collide1 s = collide2 s := by
  simp only [collide1, collide2]
  set x := s.ball.x with hxdef
  set y := s.ball.y with hydef
  set rB := s.ball.radius with hrBdef
  set rC := s.container.radius with hrCdef
  set m := s.ball.mass with hmdef
  set vx := s.ball.vx with hvxdef
  set vy := s.ball.vy with hvydef
  have hnn : (0 : ℝ) ≤ x * x + y * y := by nlinarith [sq_nonneg x, sq_nonneg y]
  set d := Real.sqrt (x * x + y * y) with hddef
  have hd2 : d * d = x * x + y * y := Real.mul_self_sqrt hnn
  have hmd : (0 : ℝ) < rC - rB := by simp only [hrBdef, hrCdef]; linarith
  have hcond : rC - rB ≤ d ↔ (rC - rB) * (rC - rB) ≤ x * x + y * y := by
    constructor
    · intro h
      calc (rC - rB) * (rC - rB) ≤ d * d :=
            mul_self_le_mul_self (le_of_lt hmd) h
        _ = x * x + y * y := hd2
    · intro h
      have h1 : (rC - rB) ^ 2 ≤ x * x + y * y := by nlinarith
      exact (Real.le_sqrt' hmd).mpr h1
  have hinv_x : x * (1 / d) = x / d := by ring
  have hinv_y : y * (1 / d) = y / d := by ring
  have hinv_Ib : rB * rB * (1 / s.ball.inertia) = rB * rB / s.ball.inertia := by
    ring
  have hinv_Ic : rC * rC * (1 / s.container.inertia)
      = rC * rC / s.container.inertia := by ring
  rw [hinv_x, hinv_y, hinv_Ib, hinv_Ic]
  by_cases hin : (rC - rB) * (rC - rB) ≤ x * x + y * y
  · have hdge : rC - rB ≤ d := hcond.mpr hin
    have hdpos : (0 : ℝ) < d := lt_of_lt_of_le hmd hdge
    have hdne : d ≠ 0 := ne_of_gt hdpos
    rw [if_pos hdge, if_pos hin, if_neg (not_le.mpr hdpos)]
    by_cases hvn : 0 < vx * (x / d) + vy * (y / d)
    · rw [if_pos hvn, if_pos hvn]
      rw [show (vx + -(1 + RESTITUTION_NORMAL) * (vx * (x / d) + vy * (y / d))
                * (x / d)) * -(y / d)
            + (vy + -(1 + RESTITUTION_NORMAL) * (vx * (x / d) + vy * (y / d))
                * (y / d)) * (x / d)
            + s.ball.angularVelocity * rB - s.container.angularVelocity * rC
          = vx * -(y / d) + vy * (x / d) + s.ball.angularVelocity * rB
            - s.container.angularVelocity * rC from by ring]
      have hpen0 : 0 ≤ d - (rC - rB) := by linarith
      generalize hnx : x / d = nx
      generalize hny : y / d = ny
      generalize hpen' : d - (rC - rB) = pen
      rw [hpen'] at hpen0
      generalize hE : (1 : ℝ) / (1 / m + rB * rB / s.ball.inertia
          + rC * rC / s.container.inertia) = E
      generalize hV : vx * -ny + vy * nx + s.ball.angularVelocity * rB
          - s.container.angularVelocity * rC = V
      generalize hN : vx * nx + vy * ny = N
      refine SimSystem.ext rfl
        (Ball.ext ?_ ?_ ?_ ?_ rfl ?_ rfl rfl rfl)
        (Container.ext rfl ?_ rfl rfl rfl) rfl
      · -- ball.x
        dsimp only
        by_cases hpen : 0 < pen
        · rw [if_pos hpen]
        · rw [if_neg hpen]
          have h0 : pen = 0 := le_antisymm (not_lt.mp hpen) hpen0
          rw [h0, mul_zero, sub_zero]
      · -- ball.y
        dsimp only
        by_cases hpen : 0 < pen
        · rw [if_pos hpen]
        · rw [if_neg hpen]
          have h0 : pen = 0 := le_antisymm (not_lt.mp hpen) hpen0
          rw [h0, mul_zero, sub_zero]
      · -- ball.vx
        dsimp only
        field_simp
        ring
      · -- ball.vy
        dsimp only
        field_simp
        ring
      · -- ball.angularVelocity
        dsimp only
        ring
      · -- container.angularVelocity
        dsimp only
        ring
    · rw [if_neg hvn, if_neg hvn]
      have hpen0 : 0 ≤ d - (rC - rB) := by linarith
      generalize hnx : x / d = nx
      generalize hny : y / d = ny
      generalize hpen' : d - (rC - rB) = pen
      rw [hpen'] at hpen0
      refine SimSystem.ext rfl
        (Ball.ext ?_ ?_ rfl rfl rfl rfl rfl rfl rfl) rfl rfl
      · dsimp only
        by_cases hpen : 0 < pen
        · rw [if_pos hpen]
        · rw [if_neg hpen]
          have h0 : pen = 0 := le_antisymm (not_lt.mp hpen) hpen0
          rw [h0, mul_zero, sub_zero]
      · dsimp only
        by_cases hpen : 0 < pen
        · rw [if_pos hpen]
        · rw [if_neg hpen]
          have h0 : pen = 0 := le_antisymm (not_lt.mp hpen) hpen0
          rw [h0, mul_zero, sub_zero]
  · rw [if_neg hin, if_neg (fun h => hin (hcond.mp h))]

/-- C10: in exact real arithmetic, one integration-plus-collision sub-step of
the first revision and one sub-step of the second revision produce identical
ball and container states, for every state of the simulated system (nonzero
ball mass, ball radius smaller than container radius — as for every state the
simulation constructs) and every sub-step size: comparing `distSq` against
`maxDistSq` instead of `dist` against `maxDist`, guarding the penetration
push with `pen > 0`, and evaluating the tangential relative surface velocity
after rather than before the normal impulse (whose tangential projection is
zero) do not change the result. -/
theorem c10_substeps_equal (s : SimSystem) (subDt : ℝ)
    (hm : s.ball.mass ≠ 0) (hr : s.ball.radius < s.container.radius) :
    subStep1 s subDt = subStep2 s subDt :=
  collide1_eq_collide2 (integrate s subDt) hm hr

/-- Witness for C10: a freshly reset system and a concrete sub-step size. -/
theorem c10_substeps_equal_witness :
    (reset 0).ball.mass ≠ 0
    ∧ (reset 0).ball.radius < (reset 0).container.radius
    ∧ subStep1 (reset 0) 1 = subStep2 (reset 0) 1 :=
  ⟨by norm_num [reset, BALL_MASS],
    by norm_num [reset, BALL_RADIUS, CONTAINER_RADIUS],
    c10_substeps_equal (reset 0) 1 (by norm_num [reset, BALL_MASS])
      (by norm_num [reset, BALL_RADIUS, CONTAINER_RADIUS])⟩

end

end PhysicsWorker
